import Mathlib

/-!
# Verification of the DGCSD training core

A shallow embedding of the DGCSD repository (graph autoencoder trained jointly
with a deep-clustering objective) and proofs about it.

Embedded from source:
* `src/runners/gae_runner.py` — the training-loop orchestrator `GaeRunner`
  (`run_training`, `__train_network`, `_find_centroids`) becomes an explicit
  state machine: `RunState`, `trainStep`, `stateAt`, `run_training`.
* `src/utils/utils.py` — `check_size_of_groups`.

External collaborators (torch, networkx, and repository modules that are not
part of the provided sources: `utils.clustering_loss`, `utils.fast_greedy`,
`utils.k_core`, `utils.find_centroids_methods`, `utils.csv_writer`,
`gat_model`) are modelled as abstract components: numeric routines become
fields of an `Env` record, and the seeding algorithms that the spec describes
are modelled from the words of the spec (each such definition carries a
`Modelled from the spec:` doc comment).

Machine reals (torch float tensors) are modelled as rationals; a matrix is a
list of rows.
-/

namespace DGCSD

/-- One embedding row (the embedding vector of a node), reals modelled as `ℚ`. -/
abbrev Vec := List ℚ

/-- A matrix (e.g. the embedding matrix `Z`, or the distributions `Q`, `P`)
as a list of rows. -/
abbrev Mat := List Vec

/-! ## `src/utils/utils.py`: `check_size_of_groups` -/

/-- The Python built-in `round` on an exact rational: round half to even, as used by `round(len(G.nodes)/x)` in
`check_size_of_groups`. -/
def pyRound (q : ℚ) : ℤ :=
  let f : ℤ := ⌊q⌋
  let r : ℚ := q - (f : ℚ)
  if r < 1/2 then f
  else if 1/2 < r then f + 1
  else if f % 2 = 0 then f else f + 1

/-- An undirected graph as seen by `check_size_of_groups`: the function only
consults `G.nodes` (for its length) and `nx.connected_components(G)` (an
external networkx call), so the graph is modelled by these two observations. -/
structure UGraph where
  nodes : List Nat
  components : List (List Nat)

/-- Embedding of `check_size_of_groups(G, x)` from `src/utils/utils.py`:
`fraction_size_graph = round(len(G.nodes)/x)`; a boolean flag starts `True`
and is set `False` for every connected component larger than the fraction. -/
def check_size_of_groups (G : UGraph) (x : ℚ) : Bool :=
  let fraction_size_graph : ℤ := pyRound ((G.nodes.length : ℚ) / x)
  let all_groups := G.components
  all_groups.foldl
    (fun valid_size group =>
      if (group.length : ℤ) > fraction_size_graph then false else valid_size)
    true

/-- The flag-carrying fold of `check_size_of_groups`: it returns `true` iff it
started `true` and no group exceeds the bound. -/
theorem foldl_valid_size (l : List (List Nat)) (b : Bool) (c : ℤ) :
    l.foldl (fun valid_size group =>
      if (group.length : ℤ) > c then false else valid_size) b
      = (b && l.all (fun g => decide ((g.length : ℤ) ≤ c))) := by
  induction l generalizing b with
  | nil => simp
  | cons g l ih =>
    simp only [List.foldl_cons, ih, List.all_cons]
    by_cases h : (g.length : ℤ) > c
    · have hg : ¬ ((g.length : ℤ) ≤ c) := not_le.mpr h
      simp [h, hg]
    · have hg : (g.length : ℤ) ≤ c := not_lt.mp h
      simp only [if_neg h, hg]
      cases b <;> simp

/-! ## `src/runners/gae_runner.py`: run-level constants -/

/-- Multiplier for the Clustering Loss (`C_LOSS_GAMMA = 30`). -/
def C_LOSS_GAMMA : ℚ := 30

/-- Interval to calculate P (`CALC_P_INTERVAL = 10`). -/
def CALC_P_INTERVAL : Nat := 10

/-! ## Graph model and spec-modelled seeding algorithms

`_find_centroids` calls `utils.find_centroids_methods.by_pagerank`,
`utils.fast_greedy.run_fast_greedy` / `get_clusters_centroids`,
`utils.k_core.find_centroids` and `utils.clustering_loss.get_clusters_centroids`;
none of these modules is among the provided sources, so they are modelled from
the spec. The graph the runner hands them (`to_networkx(self.data)`) is
modelled by the observations those algorithms need. -/

/-- The networkx graph built from `self.data`, as observed by the seeding
algorithms: its node list, its nodes ranked by descending PageRank centrality
(the external ranking itself is abstract data), the community partition that
the fast-greedy run with the hardcoded parameters `(5, 5)` produces, and the
nodes of the highest non-empty core of the k-core decomposition. -/
structure ModelGraph where
  nodes : List Nat
  centralityOrder : List Nat
  fastGreedyCommunities : List (List Nat)
  highestCore : List Nat

/-- Modelled from the spec: `utils.find_centroids_methods.by_pagerank` —
"rank nodes by a graph-structural centrality score; take top-k distinct
nodes". The PageRank ranking is the `centralityOrder` of the graph. -/
def by_pagerank (G : ModelGraph) (k : Nat) : List Nat :=
  G.centralityOrder.take k

/-- Modelled from the spec: `utils.fast_greedy.run_fast_greedy` —
"iteratively remove the highest-betweenness edges (or merge by modularity
gain) until a target number of connected components is reached or a
modularity-improvement stopping rule fires". The result of the algorithm is
the `fastGreedyCommunities` field of the graph; its two numeric parameters steer the
(abstract) stopping rule. -/
def run_fast_greedy (G : ModelGraph) (_a _b : Nat) : List (List Nat) :=
  G.fastGreedyCommunities

/-- Modelled from the spec: `utils.fast_greedy.get_clusters_centroids` —
"pick one representative per resulting component": the first node of each
community. -/
def fg_get_clusters_centroids (_G : ModelGraph) (communities : List (List Nat)) :
    List Nat :=
  communities.map (fun c => c.headD 0)

/-- Modelled from the spec: `utils.k_core.find_centroids` — "compute k-core
decomposition; choose centroids as nodes in the highest non-empty core, one
per desired cluster". -/
def kcore_find_centroids (G : ModelGraph) (k : Nat) : List Nat :=
  G.highestCore.take k

/-- Sum of two vectors, pointwise. -/
def vecAdd (a b : Vec) : Vec := List.zipWith (· + ·) a b

/-- Scale a vector. -/
def vecScale (c : ℚ) (v : Vec) : Vec := v.map (fun t => c * t)

/-- Mean of a group of vectors (empty group: empty vector). -/
def vecMean (g : List Vec) : Vec :=
  match g with
  | [] => []
  | v :: vs => vecScale (1 / ((vs.length + 1 : Nat) : ℚ)) (vs.foldl vecAdd v)

/-- The rows of `Z` whose index is congruent to `i` modulo `k`. -/
def roundRobinGroup (Z : Mat) (k i : Nat) : List Vec :=
  (Z.enum.filter (fun p => p.1 % k = i)).map (fun p => p.2)

/-- Modelled from the spec: `utils.clustering_loss.get_clusters_centroids`
(the KMeans strategy) — "cluster Z directly into k groups; centroids =
cluster means". The concrete grouping is round-robin by row index; only the
count (`k` means for `k` groups) is fixed by the spec. -/
def kmeans_get_clusters_centroids (Z : Mat) (k : Nat) : List Vec :=
  (List.range k).map (fun i => vecMean (roundRobinGroup Z k i))

/-! ## External numeric collaborators

`utils.clustering_loss.calculate_q` / `calculate_p` / `kl_div_loss` /
`update_clusters_centers`, the encoder `gae.encode`, and `gae.recon_loss` are
out-of-scope collaborators (missing sources / torch). They are abstract
fields of an environment record; the training run is deterministic and
sequential, so the encoder output at epoch `e` is a function of `e`. -/

/-- A log message emitted through the logging channel. -/
inductive LogMsg where
  | info (s : String)
  | error (s : String)
  deriving DecidableEq, Repr

/-- The abstract collaborators of one run. `kl_div_loss` receives `self.P`,
which is the integer `0` until the first assignment (modelled as `none`), and
returns the scalar clustering loss together with the gradient `Q.grad` that
the backward pass leaves on the local `Q`. -/
structure Env where
  data_y : List Nat
  graph : ModelGraph
  encode : Nat → Mat
  calculate_q : List Vec → Mat → Mat
  calculate_p : Mat → Mat
  kl_div_loss : Mat → Option Mat → ℚ × Mat
  recon_loss : Mat → ℚ
  update_clusters_centers : List Vec → Mat → List Vec
  argmaxRow : Vec → Nat

/-- The run-level configuration held by `GaeRunner.__init__`. -/
structure Config where
  epochs : Nat
  n_clusters : Nat
  find_centroids_alg : String

/-- Embedding of `GaeRunner._find_centroids` from `src/runners/gae_runner.py`: dispatch on
the strategy string; `PageRank`, `FastGreedy` and `KCore` produce node
indices `c` and store the rows `Z[c]`; `KMeans` stores the cluster means
directly; any other name logs an error and stores the empty list. Returns
the value stored into `self.clusters_centroids` together with the emitted
log messages. -/
def find_centroids_run (env : Env) (cfg : Config) (Z : Mat) :
    List Vec × List LogMsg :=
  if cfg.find_centroids_alg = "PageRank" then
    let centroids := by_pagerank env.graph 5
    (centroids.map (fun c => Z.getD c []),
     [LogMsg.info "Using PageRank to find the centroids..."])
  else if cfg.find_centroids_alg = "KMeans" then
    (kmeans_get_clusters_centroids Z cfg.n_clusters,
     [LogMsg.info "Using KMeans to find the centroids..."])
  else if cfg.find_centroids_alg = "FastGreedy" then
    let communities := run_fast_greedy env.graph 5 5
    let centroids := fg_get_clusters_centroids env.graph communities
    (centroids.map (fun c => Z.getD c []),
     [LogMsg.info "Using Fast Greedy to find the centroids..."])
  else if cfg.find_centroids_alg = "KCore" then
    let centroids := kcore_find_centroids env.graph cfg.n_clusters
    (centroids.map (fun c => Z.getD c []),
     [LogMsg.info "Using K-Core to find the centroids..."])
  else
    ([], [LogMsg.error "FIND_CENTROIDS_ALG not known. Aborting..."])

/-! ## The training-loop state machine -/

/-- The mutable fields of `GaeRunner` that the epoch loop reads and writes.
`Q` and `P` are initialized to the integer `0` (`none`), the centroid set to
`None` (`none`), `first_interaction` to `True`. -/
structure RunState where
  Q : Option Mat
  P : Option Mat
  clusters_centroids : Option (List Vec)
  first_interaction : Bool
  deriving Repr

/-- The state set up by `GaeRunner.__init__`. -/
def initState : RunState :=
  { Q := none, P := none, clusters_centroids := none, first_interaction := true }

/-- The observable events and local values of one `__train_network` call. -/
structure EpochResult where
  didSeed : Bool
  didCalcP : Bool
  didRefine : Bool
  ccUsed : List Vec
  qComp : Mat
  qGrad : Mat
  pArg : Option Mat
  Lc : ℚ
  gae_loss : ℚ
  total_loss : ℚ
  deriving Repr

/-- Embedding of the `__train_network` method from `src/runners/gae_runner.py`: encode;
seed centroids if still `None`; recompute `Q`; recompute `P` when
`epoch % CALC_P_INTERVAL == 0`; clustering loss `Lc` from `(Q, P)`;
reconstruction loss; `total = gae_loss + C_LOSS_GAMMA * Lc`; backward; refine
centroids when not the first interaction and `Lc != 0`; clear
`first_interaction`. -/
def trainStep (env : Env) (cfg : Config) (epoch : Nat) (s : RunState) :
    RunState × EpochResult :=
  let Z := env.encode epoch
  let seed := s.clusters_centroids.isNone
  let cc :=
    match s.clusters_centroids with
    | none => (find_centroids_run env cfg Z).1
    | some c => c
  let Q := env.calculate_q cc Z
  let P := if epoch % CALC_P_INTERVAL = 0 then some (env.calculate_p Q) else s.P
  let LcGrad := env.kl_div_loss Q P
  let Lc := LcGrad.1
  let qGrad := LcGrad.2
  let gae_loss := env.recon_loss Z
  let total_loss := gae_loss + C_LOSS_GAMMA * Lc
  let refine := decide (s.first_interaction = false) && decide (Lc ≠ 0)
  let cc2 := if refine then env.update_clusters_centers cc qGrad else cc
  ({ Q := some Q, P := P, clusters_centroids := some cc2, first_interaction := false },
   { didSeed := seed,
     didCalcP := decide (epoch % CALC_P_INTERVAL = 0),
     didRefine := refine,
     ccUsed := cc,
     qComp := Q,
     qGrad := qGrad,
     pArg := P,
     Lc := Lc,
     gae_loss := gae_loss,
     total_loss := total_loss })

/-- The runner state after the first `e` iterations of the epoch loop. -/
def stateAt (env : Env) (cfg : Config) : Nat → RunState
  | 0 => initState
  | e + 1 => (trainStep env cfg e (stateAt env cfg e)).1

/-- The observations of the `__train_network` call at epoch `e`. -/
def epochResult (env : Env) (cfg : Config) (e : Nat) : EpochResult :=
  (trainStep env cfg e (stateAt env cfg e)).2

/-- One row of the error log: `[epoch, loss, c_loss, gae_loss]`. -/
def error_row (e : Nat) (r : EpochResult) : Nat × ℚ × ℚ × ℚ :=
  (e, r.total_loss, r.Lc, r.gae_loss)

/-- What a completed `run_training` call hands back or persists: the returned
`self.data` is untouched by the loop (only the final `Q` and the log depend
on it); `writes` records each `csv_writer.write_erros` call. -/
structure RunOutput where
  error_log : List (Nat × ℚ × ℚ × ℚ)
  writes : List (List (Nat × ℚ × ℚ × ℚ))
  r_labels : List Nat
  deriving Repr

/-- Embedding of `GaeRunner.run_training` from `src/runners/gae_runner.py`: run the epoch
loop, appending one `error_row` per epoch; then iterate `for line in self.Q`
taking the arg-max of each row — when `self.Q` is still the integer `0`
(no epoch ran), this `for` raises `TypeError`; finally write the error log
exactly once and return. -/
def run_training (env : Env) (cfg : Config) : Except String RunOutput :=
  let error_log :=
    (List.range cfg.epochs).map (fun e => error_row e (epochResult env cfg e))
  match (stateAt env cfg cfg.epochs).Q with
  | none => Except.error "TypeError: int object is not iterable"
  | some q =>
      Except.ok
        { error_log := error_log,
          writes := [error_log],
          r_labels := q.map env.argmaxRow }

/-! ## State invariants of the epoch loop -/

/-- The flag `first_interaction` holds before the loop and is cleared by every epoch. -/
theorem stateAt_first_interaction (env : Env) (cfg : Config) (e : Nat) :
    (stateAt env cfg e).first_interaction = decide (e = 0) := by
  cases e with
  | zero => rfl
  | succ n => simp [stateAt, trainStep]

/-- The centroid set is `None` before the loop and a list after any epoch. -/
theorem stateAt_centroids_isNone (env : Env) (cfg : Config) (e : Nat) :
    (stateAt env cfg e).clusters_centroids.isNone = decide (e = 0) := by
  cases e with
  | zero => rfl
  | succ n => simp [stateAt, trainStep]

/-- The field `Q` is the integer `0` before the loop and a matrix after any epoch. -/
theorem stateAt_Q_isNone (env : Env) (cfg : Config) (e : Nat) :
    (stateAt env cfg e).Q.isNone = decide (e = 0) := by
  cases e with
  | zero => rfl
  | succ n => simp [stateAt, trainStep]

/-- The field `P` is a matrix after any epoch: epoch `0` always recomputes it
(`0 % CALC_P_INTERVAL = 0`), and later epochs either recompute it or keep the
previous matrix. -/
theorem stateAt_P_isSome (env : Env) (cfg : Config) (e : Nat) :
    (stateAt env cfg (e + 1)).P.isSome = true := by
  induction e with
  | zero => simp [stateAt, trainStep, CALC_P_INTERVAL]
  | succ n ih =>
    show ((trainStep env cfg (n + 1) (stateAt env cfg (n + 1))).1).P.isSome = true
    by_cases h : (n + 1) % CALC_P_INTERVAL = 0
    · simp [trainStep, h]
    · simp [trainStep, h, ih]

/-! ## A concrete environment for evaluating the model -/

/-- A small concrete graph for running the model. -/
def demoGraph : ModelGraph :=
  { nodes := [0, 1, 2, 3, 4, 5],
    centralityOrder := [5, 4, 3, 2, 1, 0],
    fastGreedyCommunities := [[0, 1], [2, 3], [4, 5]],
    highestCore := [0, 1, 2, 3] }

/-- A concrete embedding matrix. -/
def demoZ : Mat := [[0], [1], [2], [3], [4], [5]]

/-- A concrete environment: simple computable stand-ins for the abstract
collaborators. -/
def demoEnv : Env :=
  { data_y := [0, 0, 1, 1, 2, 2],
    graph := demoGraph,
    encode := fun e => [[(e : ℚ)], [(e : ℚ) + 1], [2], [3], [4], [5]],
    calculate_q := fun cc Z => Z.map (fun r => r ++ [(cc.length : ℚ)]),
    calculate_p := fun q => q.map (vecScale 2),
    kl_div_loss := fun q p =>
      (match p with
       | none => 0
       | some pm => (q.length : ℚ) - (pm.length : ℚ) + 1, q),
    recon_loss := fun Z => (Z.length : ℚ),
    update_clusters_centers := fun cc g => cc.map (fun v => vecAdd v (g.headD [])),
    argmaxRow := fun v => v.length }

/-- A configuration using the KMeans strategy, two epochs. -/
def demoCfg : Config :=
  { epochs := 2, n_clusters := 3, find_centroids_alg := "KMeans" }

/-- A configuration using the PageRank strategy with three requested
clusters. -/
def demoCfgPR : Config :=
  { epochs := 2, n_clusters := 3, find_centroids_alg := "PageRank" }

/-- A configuration with an unrecognized strategy name. -/
def demoCfgUnknown : Config :=
  { epochs := 2, n_clusters := 3, find_centroids_alg := "Unknown" }

/-- A configuration with zero epochs. -/
def demoCfgZero : Config :=
  { epochs := 0, n_clusters := 3, find_centroids_alg := "KMeans" }

/-! ## The claims -/

/-- C10: for every undirected graph `G` and every positive `x`,
`check_size_of_groups(G, x)` returns `True` if and only if every connected
component of `G` has at most `round(len(G.nodes)/x)` nodes. -/
theorem C10_check_size_of_groups (G : UGraph) (x : ℚ) (hx : 0 < x) :
    check_size_of_groups G x = true ↔
      ∀ g ∈ G.components,
        (g.length : ℤ) ≤ pyRound ((G.nodes.length : ℚ) / x) := by
  unfold check_size_of_groups
  rw [foldl_valid_size]
  simp [List.all_eq_true]

/-- Witness for C10 at a concrete graph (4 nodes, two components of size 2)
and `x = 2`. -/
theorem C10_witness :
    (0 : ℚ) < 2 ∧
      (check_size_of_groups ⟨[0, 1, 2, 3], [[0, 1], [2, 3]]⟩ 2 = true ↔
        ∀ g ∈ (UGraph.mk [0, 1, 2, 3] [[0, 1], [2, 3]]).components,
          (g.length : ℤ) ≤
            pyRound ((((UGraph.mk [0, 1, 2, 3] [[0, 1], [2, 3]]).nodes.length : ℚ)) / 2)) :=
  ⟨by norm_num,
   C10_check_size_of_groups ⟨[0, 1, 2, 3], [[0, 1], [2, 3]]⟩ 2 (by norm_num)⟩

/-- C1: in every run and at every epoch `e`, `P` is recomputed exactly when
`e % CALC_P_INTERVAL = 0` (and at no other epoch), `Q` is recomputed at every
epoch from the fresh encoding, and between two consecutive epochs that do not
cross an interval boundary `P` is unchanged. -/
theorem C1_P_schedule (env : Env) (cfg : Config) (e : Nat) :
    (epochResult env cfg e).didCalcP = decide (e % CALC_P_INTERVAL = 0)
    ∧ (stateAt env cfg (e + 1)).Q = some (epochResult env cfg e).qComp
    ∧ (epochResult env cfg e).qComp
        = env.calculate_q (epochResult env cfg e).ccUsed (env.encode e)
    ∧ ((e + 1) % CALC_P_INTERVAL ≠ 0 →
        (stateAt env cfg (e + 2)).P = (stateAt env cfg (e + 1)).P) := by
  refine ⟨rfl, rfl, rfl, fun h => ?_⟩
  show ((trainStep env cfg (e + 1) (stateAt env cfg (e + 1))).1).P
      = (stateAt env cfg (e + 1)).P
  simp [trainStep, h]

/-- Witness for C1 at `e = 1` in the concrete environment: `P` is not
recomputed at epoch 1, `Q` is, and `P` is unchanged between epochs 1 and 2. -/
theorem C1_witness :
    (epochResult demoEnv demoCfg 1).didCalcP = decide (1 % CALC_P_INTERVAL = 0)
    ∧ (stateAt demoEnv demoCfg 2).Q = some (epochResult demoEnv demoCfg 1).qComp
    ∧ (epochResult demoEnv demoCfg 1).qComp
        = demoEnv.calculate_q (epochResult demoEnv demoCfg 1).ccUsed (demoEnv.encode 1)
    ∧ (stateAt demoEnv demoCfg 3).P = (stateAt demoEnv demoCfg 2).P :=
  ⟨(C1_P_schedule demoEnv demoCfg 1).1,
   (C1_P_schedule demoEnv demoCfg 1).2.1,
   (C1_P_schedule demoEnv demoCfg 1).2.2.1,
   (C1_P_schedule demoEnv demoCfg 1).2.2.2 (by decide)⟩

/-- C2: centroid refinement runs exactly when the epoch is not the first
trained one and the clustering loss is nonzero; when it runs, the next
centroids of the next state are `update_clusters_centers` of the current
ones, else
they are unchanged. -/
theorem C2_refine_condition (env : Env) (cfg : Config) (e : Nat) :
    (epochResult env cfg e).didRefine
        = (decide (e ≠ 0) && decide ((epochResult env cfg e).Lc ≠ 0))
    ∧ (stateAt env cfg (e + 1)).clusters_centroids
        = some (if (epochResult env cfg e).didRefine = true
            then env.update_clusters_centers (epochResult env cfg e).ccUsed
              (epochResult env cfg e).qGrad
            else (epochResult env cfg e).ccUsed) := by
  constructor
  · have h2 : decide ((stateAt env cfg e).first_interaction = false) = decide (e ≠ 0) := by
      rw [stateAt_first_interaction]
      by_cases he : e = 0 <;> simp [he]
    show (decide ((stateAt env cfg e).first_interaction = false)
          && decide ((epochResult env cfg e).Lc ≠ 0))
        = (decide (e ≠ 0) && decide ((epochResult env cfg e).Lc ≠ 0))
    rw [h2]
  · show some _ = some _
    rfl

/-- C6: at every epoch the loss sent to the backward pass is the
reconstruction loss plus `C_LOSS_GAMMA` times the clustering loss, and
`C_LOSS_GAMMA` is the fixed constant `30`. -/
theorem C6_total_loss (env : Env) (cfg : Config) (e : Nat) :
    (epochResult env cfg e).total_loss
        = (epochResult env cfg e).gae_loss
            + C_LOSS_GAMMA * (epochResult env cfg e).Lc
    ∧ C_LOSS_GAMMA = 30 :=
  ⟨rfl, rfl⟩

/-- C7: seeding runs exactly at epoch 0 (when the centroid set is still
`None`), and after any epoch the centroid set is defined, so `_find_centroids`
is never invoked again. -/
theorem C7_seed_once (env : Env) (cfg : Config) (e : Nat) :
    (epochResult env cfg e).didSeed = decide (e = 0)
    ∧ (stateAt env cfg (e + 1)).clusters_centroids.isSome = true := by
  constructor
  · show (stateAt env cfg e).clusters_centroids.isNone = decide (e = 0)
    exact stateAt_centroids_isNone env cfg e
  · simp [stateAt, trainStep]

/-- C9: epoch 0 recomputes `P` (`0 % CALC_P_INTERVAL = 0`), so at every call
of the clustering-loss function inside the loop the `P` argument is a
computed matrix, never the initial integer `0`. -/
theorem C9_P_before_loss (env : Env) (cfg : Config) (e : Nat) :
    (epochResult env cfg e).pArg.isSome = true
    ∧ (epochResult env cfg 0).didCalcP = true := by
  constructor
  · cases e with
    | zero => simp [epochResult, trainStep, stateAt, CALC_P_INTERVAL]
    | succ n =>
      show ((trainStep env cfg (n + 1) (stateAt env cfg (n + 1))).2).pArg.isSome = true
      by_cases h : (n + 1) % CALC_P_INTERVAL = 0
      · simp [trainStep, h]
      · simp [trainStep, h, stateAt_P_isSome]
  · rfl

/-- C4: for every strategy name other than the four recognized ones,
`_find_centroids` stores the empty centroid list and logs an error without
raising, and the run continues: after epoch 0 the centroid set is the empty
list. -/
theorem C4_unknown_strategy (env : Env) (cfg : Config) (Z : Mat)
    (h1 : cfg.find_centroids_alg ≠ "PageRank")
    (h2 : cfg.find_centroids_alg ≠ "KMeans")
    (h3 : cfg.find_centroids_alg ≠ "FastGreedy")
    (h4 : cfg.find_centroids_alg ≠ "KCore") :
    find_centroids_run env cfg Z
        = ([], [LogMsg.error "FIND_CENTROIDS_ALG not known. Aborting..."])
    ∧ (stateAt env cfg 1).clusters_centroids = some [] := by
  have hfc : ∀ W, find_centroids_run env cfg W
      = ([], [LogMsg.error "FIND_CENTROIDS_ALG not known. Aborting..."]) := by
    intro W
    unfold find_centroids_run
    simp [h1, h2, h3, h4]
  refine ⟨hfc Z, ?_⟩
  show ((trainStep env cfg 0 initState).1).clusters_centroids = some []
  simp [trainStep, initState, hfc]

/-- Witness for C4 with the strategy name `Unknown`. -/
theorem C4_witness :
    find_centroids_run demoEnv demoCfgUnknown demoZ
        = ([], [LogMsg.error "FIND_CENTROIDS_ALG not known. Aborting..."])
    ∧ (stateAt demoEnv demoCfgUnknown 1).clusters_centroids = some [] :=
  C4_unknown_strategy demoEnv demoCfgUnknown demoZ
    (by decide) (by decide) (by decide) (by decide)

/-- Counterexample to C3 as stated: PageRank strategy, `n_clusters = 3`, a
graph with 6 nodes (so at least `n_clusters` nodes): the centroid set has
length 5, not `n_clusters`, because the source hardcodes `by_pagerank(G, 5)`. -/
theorem C3_counterexample :
    demoCfgPR.n_clusters = 3
    ∧ demoCfgPR.find_centroids_alg = "PageRank"
    ∧ demoCfgPR.n_clusters ≤ demoEnv.graph.nodes.length
    ∧ (find_centroids_run demoEnv demoCfgPR demoZ).1.length = 5
    ∧ (find_centroids_run demoEnv demoCfgPR demoZ).1.length ≠ demoCfgPR.n_clusters := by
  refine ⟨rfl, rfl, by decide, by decide, by decide⟩

/-- C3 amended: the KMeans strategy yields exactly `n_clusters` centroids;
KCore yields `n_clusters` when the highest core has at least that many
nodes; PageRank always yields 5 (the hardcoded argument), independent of
`n_clusters`, when the graph has at least 5 nodes; FastGreedy yields one
centroid per community found by the hardcoded `run_fast_greedy(G, 5, 5)`
call. -/
theorem C3_centroid_count_by_strategy (env : Env) (cfg : Config) (Z : Mat) :
    (cfg.find_centroids_alg = "KMeans" →
        (find_centroids_run env cfg Z).1.length = cfg.n_clusters)
    ∧ (cfg.find_centroids_alg = "KCore" →
        cfg.n_clusters ≤ env.graph.highestCore.length →
        (find_centroids_run env cfg Z).1.length = cfg.n_clusters)
    ∧ (cfg.find_centroids_alg = "PageRank" →
        5 ≤ env.graph.centralityOrder.length →
        (find_centroids_run env cfg Z).1.length = 5)
    ∧ (cfg.find_centroids_alg = "FastGreedy" →
        (find_centroids_run env cfg Z).1.length
          = env.graph.fastGreedyCommunities.length) := by
  refine ⟨fun h => ?_, fun h hk => ?_, fun h h5 => ?_, fun h => ?_⟩
  · simp [find_centroids_run, h, kmeans_get_clusters_centroids]
  · simp [find_centroids_run, h, kcore_find_centroids, List.length_take]
    omega
  · simp [find_centroids_run, h, by_pagerank, List.length_take]
    omega
  · simp [find_centroids_run, h, run_fast_greedy, fg_get_clusters_centroids]

/-- Witness for C3: KMeans with `n_clusters = 3` yields 3 centroids;
PageRank on the 6-node demo graph yields 5. -/
theorem C3_witness :
    (find_centroids_run demoEnv demoCfg demoZ).1.length = demoCfg.n_clusters
    ∧ (find_centroids_run demoEnv demoCfgPR demoZ).1.length = 5 :=
  ⟨(C3_centroid_count_by_strategy demoEnv demoCfg demoZ).1 rfl,
   (C3_centroid_count_by_strategy demoEnv demoCfgPR demoZ).2.2.1 rfl (by decide)⟩

/-- Counterexample to C5 as stated: with `epochs = 0`, `run_training` does
not return — `for line in self.Q` iterates the integer `0` and raises a
`TypeError`. -/
theorem C5_counterexample :
    run_training demoEnv demoCfgZero
      = Except.error "TypeError: int object is not iterable" := rfl

/-- C5 amended: with `epochs = 0` the loop never runs — the state is still
the initial one (embeddings untouched, centroid set undefined, `Q = P = 0`) —
but `run_training` raises a `TypeError` while deriving labels from `Q`
instead of returning. -/
theorem C5_epochs_zero (env : Env) (cfg : Config) (h : cfg.epochs = 0) :
    run_training env cfg = Except.error "TypeError: int object is not iterable"
    ∧ stateAt env cfg cfg.epochs = initState := by
  have h0 : stateAt env cfg cfg.epochs = initState := by rw [h]; rfl
  refine ⟨?_, h0⟩
  unfold run_training
  rw [h0]
  rfl

/-- Witness for C5 amended, at `epochs = 0` in the concrete environment. -/
theorem C5_witness :
    (run_training demoEnv demoCfgZero
        = Except.error "TypeError: int object is not iterable")
    ∧ stateAt demoEnv demoCfgZero demoCfgZero.epochs = initState :=
  C5_epochs_zero demoEnv demoCfgZero rfl

/-- C8: a run with at least one epoch completes with an error log holding
exactly one row per trained epoch — row `e` being
`(e, total_loss, clustering_loss, reconstruction_loss)` of epoch `e` — and
the log is written exactly once, at run completion. -/
theorem C8_error_log (env : Env) (cfg : Config) (h : 1 ≤ cfg.epochs) :
    ∃ out, run_training env cfg = Except.ok out
      ∧ out.error_log.length = cfg.epochs
      ∧ (∀ e, e < cfg.epochs →
          out.error_log.get? e = some (error_row e (epochResult env cfg e)))
      ∧ out.writes = [out.error_log] := by
  obtain ⟨n, hn⟩ : ∃ n, cfg.epochs = n + 1 := ⟨cfg.epochs - 1, by omega⟩
  obtain ⟨q, hq⟩ : ∃ q, (stateAt env cfg cfg.epochs).Q = some q := by
    rw [hn]
    exact ⟨_, rfl⟩
  refine ⟨{ error_log :=
              (List.range cfg.epochs).map (fun e => error_row e (epochResult env cfg e)),
            writes :=
              [(List.range cfg.epochs).map (fun e => error_row e (epochResult env cfg e))],
            r_labels := q.map env.argmaxRow }, ?_, ?_, ?_, rfl⟩
  · unfold run_training
    rw [hq]
  · simp
  · intro e he
    rw [List.get?_map, List.get?_range he]
    rfl

/-- Witness for C8: the two-epoch concrete run. -/
theorem C8_witness :
    ∃ out, run_training demoEnv demoCfg = Except.ok out
      ∧ out.error_log.length = demoCfg.epochs
      ∧ (∀ e, e < demoCfg.epochs →
          out.error_log.get? e = some (error_row e (epochResult demoEnv demoCfg e)))
      ∧ out.writes = [out.error_log] :=
  C8_error_log demoEnv demoCfg (by decide)

end DGCSD
